import Mathlib

/-!
Verification of the papermark document-ingestion core against its
natural-language specification.  JavaScript strings are modelled as lists
of characters; fallible external calls (URL parsing, the Notion client,
the Edge-Config blocklist, the database, the job queue, webhooks) are
modelled as explicit oracle parameters, so every embedded function is
executable and every claim can be evaluated on concrete inputs.
-/

namespace Papermark

/-- JavaScript strings, modelled as lists of characters. -/
abbrev JStr := List Char

/-- Shorthand turning a Lean string literal into a modelled JS string. -/
def js (s : String) : JStr := s.data

/-- Embeds JavaScript `s.includes(sub)`: substring containment. -/
def jsIncludes (s sub : JStr) : Bool :=
  match s with
  | [] => sub.isEmpty
  | _ :: rest => sub.isPrefixOf s || jsIncludes rest sub

/-- Embeds JavaScript `String.prototype.toLowerCase` on one character
(only the ASCII range matters for the hostnames screened here). -/
def jsToLowerChar (c : Char) : Char :=
  if 'A' ≤ c ∧ c ≤ 'Z' then Char.ofNat (c.toNat + 32) else c

/-- Embeds `validatePathSecurity` from src/lib/zod/url-validation.ts
(lines 18-35).  The source is a chain of early `return false`s — one per
banned substring — followed by `return true`; that chain is the negation
of the disjunction of the five substring tests. -/
def validatePathSecurity (pathOrUrl : JStr) : Bool :=
  !(jsIncludes pathOrUrl (js "../") || jsIncludes pathOrUrl (js "..\\") ||
    jsIncludes pathOrUrl (js "\x00") ||
    jsIncludes pathOrUrl (js "%2E%2E") || jsIncludes pathOrUrl (js "%2F%2F"))

/-- Embeds the middle alternative of the hostname regex in
`validateUrlSSRFProtection`, namely `^172\.(1[6-9]|2[0-9]|3[01])\.` : the
character classes denote exactly the two-digit strings 16 through 31, so
the alternative matches exactly the sixteen prefixes `172.16.` … `172.31.`. -/
def matches172 (h : JStr) : Bool :=
  (js "172.16.").isPrefixOf h || (js "172.17.").isPrefixOf h ||
  (js "172.18.").isPrefixOf h || (js "172.19.").isPrefixOf h ||
  (js "172.20.").isPrefixOf h || (js "172.21.").isPrefixOf h ||
  (js "172.22.").isPrefixOf h || (js "172.23.").isPrefixOf h ||
  (js "172.24.").isPrefixOf h || (js "172.25.").isPrefixOf h ||
  (js "172.26.").isPrefixOf h || (js "172.27.").isPrefixOf h ||
  (js "172.28.").isPrefixOf h || (js "172.29.").isPrefixOf h ||
  (js "172.30.").isPrefixOf h || (js "172.31.").isPrefixOf h

/-- Embeds the regex test
`hostname.match(/^10\.|^172\.(1[6-9]|2[0-9]|3[01])\.|^192\.168\./)`
from src/lib/zod/url-validation.ts line 56. -/
def privateIpRegexTest (h : JStr) : Bool :=
  (js "10.").isPrefixOf h || matches172 h || (js "192.168.").isPrefixOf h

/-- Embeds the hostname screening of `validateUrlSSRFProtection`
(src/lib/zod/url-validation.ts lines 44-70): the source is a chain of
early `return false`s (loopback literals, the private-range regex, the
`169.254.` regex, the lowercased `fe80:` prefix) followed by `return true`. -/
def ssrfBlockedHostname (h : JStr) : Bool :=
  (h == js "localhost" || h == js "127.0.0.1" || h == js "::1") ||
  privateIpRegexTest h ||
  (js "169.254.").isPrefixOf h ||
  (js "fe80:").isPrefixOf (h.map jsToLowerChar)

/-- Embeds `validateUrlSSRFProtection` from src/lib/zod/url-validation.ts
(lines 41-74).  The platform URL parser invoked by `new URL(url)` is
external library code, so it is passed as an oracle `parseHost` returning
the hostname, or `none` when parsing throws (in which case the source's
`catch` returns false). -/
def validateUrlSSRFProtection (parseHost : JStr → Option JStr) (url : JStr) : Bool :=
  match parseHost url with
  | none => false
  | some hostname => !(ssrfBlockedHostname hostname)

/-- Embeds `validateUrlSecurity` from src/lib/zod/url-validation.ts
(lines 80-82): the conjunction of the two screens. -/
def validateUrlSecurity (parseHost : JStr → Option JStr) (url : JStr) : Bool :=
  validatePathSecurity url && validateUrlSSRFProtection parseHost url

/-- Modelled from the spec: the platform WHATWG URL parser (`new URL`),
restricted to the plain `https://host/path` URLs used in concrete
instances — it strips the scheme and reads the hostname up to the first
delimiter, failing on everything else. -/
def parseHostSimple (url : JStr) : Option JStr :=
  if (js "https://").isPrefixOf url then
    let rest := url.drop 8
    let h := rest.takeWhile (fun c => c != '/' && c != ':' && c != '?' && c != '#')
    if h.isEmpty then none else some h
  else none

/-- Splits a hostname at the dots, for reading it as a dotted-quad IPv4
address. -/
def splitOnDot (s : JStr) : List JStr :=
  match s with
  | [] => [[]]
  | c :: rest =>
    let r := splitOnDot rest
    if c = '.' then [] :: r
    else
      match r with
      | g :: gs => (c :: g) :: gs
      | [] => [[c]]

/-- Numeric value of a nonempty all-digit group. -/
def decVal (g : JStr) : Nat := g.foldl (fun n c => n * 10 + (c.toNat - 48)) 0

/-- Reads one decimal octet: nonempty, all digits, value at most 255. -/
def parseOctet (g : JStr) : Option Nat :=
  if !g.isEmpty && g.all (fun c => c.isDigit) then
    if decVal g ≤ 255 then some (decVal g) else none
  else none

/-- Reads a hostname as a dotted-quad IPv4 address, when it is one. -/
def parseIPv4 (h : JStr) : Option (Nat × Nat × Nat × Nat) :=
  match splitOnDot h with
  | [a, b, c, d] =>
    match parseOctet a, parseOctet b, parseOctet c, parseOctet d with
    | some x, some y, some z, some w => some (x, y, z, w)
    | _, _, _, _ => none
  | _ => none

/-- Hexadecimal value of one character, case-insensitive. -/
def hexDigitVal (c : Char) : Option Nat :=
  if c.isDigit then some (c.toNat - 48)
  else if 'a' ≤ c ∧ c ≤ 'f' then some (c.toNat - 87)
  else if 'A' ≤ c ∧ c ≤ 'F' then some (c.toNat - 55)
  else none

/-- Reads a 16-bit group of an IPv6 address: one to four hex digits. -/
def parseHextet (g : JStr) : Option Nat :=
  if g.isEmpty || decide (4 < g.length) then none
  else
    g.foldl
      (fun acc c =>
        match acc, hexDigitVal c with
        | some n, some d => some (n * 16 + d)
        | _, _ => none)
      (some 0)

/-- Modelled from claim C5's words: a hostname is an IPv6 address in the
link-local range fe80::/10 (compared case-insensitively) when it contains
a colon and its leading 16-bit group lies in 0xfe80 … 0xfebf — the
addresses whose first ten bits equal those of fe80::. -/
def inFe80Slash10 (h : JStr) : Bool :=
  let g := h.takeWhile (fun c => c != ':')
  if g.length == h.length then false
  else
    match parseHextet (g.map jsToLowerChar) with
    | some n => decide (0xfe80 ≤ n ∧ n ≤ 0xfebf)
    | none => false

/-- Claim C5's reading of `validateUrlSSRFProtection`, written from the
claim's words: reject exactly parse failures, the three loopback names,
hostnames that are IPv4 addresses lying in the four listed CIDR ranges,
and IPv6 addresses in fe80::/10; accept every other input. -/
def ssrfProtectionAsClaimed (parseHost : JStr → Option JStr) (url : JStr) : Bool :=
  match parseHost url with
  | none => false
  | some h =>
    if h == js "localhost" || h == js "127.0.0.1" || h == js "::1" then false
    else if
        (match parseIPv4 h with
         | some (a, b, _, _) =>
           a == 10 || (a == 172 && decide (16 ≤ b ∧ b ≤ 31)) ||
           (a == 192 && b == 168) || (a == 169 && b == 254)
         | none => false) then false
    else if inFe80Slash10 h then false
    else true

/-! The document-ingestion orchestrator `processDocument`
(src/unnamed/part_000).  External collaborators — the Notion client, the
Edge-Config blocklist, prisma, the trigger queue, webhooks — are oracles
carried in `Env`; the four post-commit failure sites are fault-injection
fields of `Env`. -/

/-- Storage backends of the prisma schema. -/
inductive StorageType where
  | S3_PATH
  | VERCEL_BLOB
deriving DecidableEq

/-- The `DocumentData` payload consumed by `processDocument`
(src/unnamed/part_000 lines 40-49).  Optional string fields model
possibly-undefined JS values. -/
structure DocumentData where
  name : JStr
  key : JStr
  storageType : StorageType
  contentType : Option JStr
  supportedFileType : Option JStr
  fileSize : Option Nat
  numPages : Option Nat
  enableExcelAdvancedMode : Option Bool
deriving DecidableEq

/-- A DocumentVersion row as created at src/unnamed/part_000 lines 163-175. -/
structure DocumentVersion where
  id : JStr
  file : JStr
  originalFile : JStr
  contentType : Option JStr
  type : JStr
  storageType : StorageType
  numPages : Option Nat
  isPrimary : Bool
  versionNumber : Nat
  fileSize : Option Nat
deriving DecidableEq

/-- A Link row as created at src/unnamed/part_000 lines 156-162. -/
structure Link where
  id : JStr
  teamId : JStr
deriving DecidableEq

/-- A Document row, with the `links` and `versions` relations included as
in the create call (src/unnamed/part_000 lines 143-183). -/
structure Document where
  id : JStr
  name : JStr
  numPages : Option Nat
  file : JStr
  originalFile : JStr
  contentType : Option JStr
  type : JStr
  storageType : StorageType
  ownerId : Option JStr
  teamId : JStr
  advancedExcelEnabled : Option Bool
  downloadOnly : Bool
  folderId : Option JStr
  isExternalUpload : Bool
  links : List Link
  versions : List DocumentVersion
deriving DecidableEq

/-- A JavaScript value inside the Edge-Config `keywords` array: either a
string or something of another type (the source checks `typeof`). -/
inductive JsVal where
  | str (s : JStr)
  | other
deriving DecidableEq

/-- The value returned by `get("keywords")`: not an array (including
undefined), or an array of values. -/
inductive EdgeKeywords where
  | notArray
  | arr (l : List JsVal)
deriving DecidableEq

/-- Fresh row identifiers produced by a successful `prisma.document.create`. -/
structure DbIds where
  documentId : JStr
  versionId : JStr
  linkId : JStr
deriving DecidableEq

/-- Conversion-task kinds dispatched at src/unnamed/part_000 lines 198-260. -/
inductive TaskKind where
  | keynoteToPdf
  | filesToPdf
  | cadToPdf
  | videoProcess
  | pdfToImage
deriving DecidableEq

/-- The option record passed to `trigger` (src/unnamed/part_000 lines 187-196). -/
structure TaskOptions where
  idempotencyKey : JStr
  tags : List JStr
  queue : JStr
  concurrencyKey : JStr
deriving DecidableEq

/-- One submitted conversion task. -/
structure Task where
  kind : TaskKind
  options : TaskOptions
deriving DecidableEq

/-- Oracle environment for every external call made by `processDocument`,
with fault-injection fields for the isolated phases. -/
structure Env where
  getExtension : JStr → JStr
  parsePageId : JStr → Option JStr
  getNotionPageIdFromSlug : JStr → Except Unit (Option JStr)
  notionGetPage : JStr → Except Unit Unit
  urlParses : JStr → Bool
  edgeKeywords : Except Unit EdgeKeywords
  folderLookup : Except Unit (Option JStr)
  dbCreate : Except Unit DbIds
  conversionQueue : JStr → JStr
  triggerFail : Option Nat
  copyFileOk : Bool
  versionUpdateOk : Bool
  revalidateEnvSet : Bool
  webhookDocOk : Bool
  webhookLinkOk : Bool

/-- The parameters of `processDocument` (src/unnamed/part_000 lines 21-29). -/
structure Params where
  documentData : DocumentData
  teamId : JStr
  teamPlan : JStr
  userId : Option JStr
  folderPathName : Option JStr
  createLink : Bool
  isExternalUpload : Bool

/-- Errors `processDocument` can throw to its caller.  `urlNotAllowed`
models the "This URL is not allowed" error of line 101; `dbError` models a
failing `prisma.document.create`, which is not caught. -/
inductive PmError where
  | notionNotAvailable
  | invalidUrlFormat
  | urlNotAllowed
  | dbError
deriving DecidableEq

/-- Observable outcome of one `processDocument` call: the value returned
or error thrown, the final database table, the creation log (rows exactly
as created), the structured blocklist alerts logged, and the conversion
tasks submitted to the queue. -/
structure PRes where
  result : Except PmError Document
  db : List Document
  created : List Document
  alerts : List JStr
  tasks : List Task

/-- Embeds JavaScript `a || b` where `a` is a possibly-undefined string
(undefined and the empty string are falsy). -/
def jsOrStr (a : Option JStr) (b : JStr) : JStr :=
  match a with
  | some s => if s.isEmpty then b else s
  | none => b

/-- Truthiness of a possibly-undefined boolean. -/
def jsTruthyOpt (b : Option Bool) : Bool := b.getD false

/-- Line 52: `const type = supportedFileType || getExtension(name)`. -/
def resolvedType (env : Env) (dd : DocumentData) : JStr :=
  jsOrStr dd.supportedFileType (env.getExtension dd.name)

/-- Lines 57-68: direct page-id parse, then the slug lookup whose own
errors are caught and treated as no page id. -/
def resolveNotionPageId (env : Env) (key : JStr) : Option JStr :=
  match env.parsePageId key with
  | some pid => some pid
  | none =>
    match env.getNotionPageIdFromSlug key with
    | .ok r => r
    | .error _ => none

/-- Lines 55-80: the Notion gate passes when the type is not "notion", or
a page id is resolved and `notion.getPage` succeeds on it. -/
def notionGateOk (env : Env) (ty key : JStr) : Bool :=
  if ty == js "notion" then
    match resolveNotionPageId env key with
    | none => false
    | some pid =>
      match env.notionGetPage pid with
      | .ok _ => true
      | .error _ => false
  else true

/-- Lines 83-85 and 107-112: for type "link" the key must parse as a URL,
otherwise "Invalid URL format for link document." is thrown. -/
def linkUrlOk (env : Env) (ty key : JStr) : Bool :=
  !(ty == js "link") || env.urlParses key

/-- Lines 91-93: `keywords.find(k => typeof k === "string" && key.includes(k))`. -/
def findMatchedKeyword (key : JStr) : List JsVal → Option JStr
  | [] => none
  | .str s :: rest => if jsIncludes key s then some s else findMatchedKeyword key rest
  | .other :: rest => findMatchedKeyword key rest

/-- Lines 88-106: the structured alerts logged by the link blocklist
check.  The `log` call of line 96 fires exactly when the Edge-Config
value is a nonempty array containing a matching string keyword; a failing
or non-array Edge-Config read logs nothing.  The `throw` of line 101 is
inside the same inner try, so it is caught by the `catch (edgeError)` of
line 104 and the check never aborts the call. -/
def linkAlerts (env : Env) (key : JStr) : List JStr :=
  match env.edgeKeywords with
  | .error _ => []
  | .ok .notArray => []
  | .ok (.arr l) =>
    if l.isEmpty then []
    else
      match findMatchedKeyword key l with
      | some kw => [kw]
      | none => []

/-- Lines 116-132: folder lookup, defaulting to no folder on any failure. -/
def folderIdOf (env : Env) : Option JStr :=
  match env.folderLookup with
  | .ok r => r
  | .error _ => none

/-- Lines 135-139: the download-only derivation. -/
def isDownloadOnly (ty : JStr) (ct : Option JStr) : Bool :=
  ty == js "zip" || ty == js "map" || ty == js "email" ||
  ct == some (js "text/tab-separated-values")

/-- The Document row built by the create call of lines 143-183, relations
included: one primary version numbered 1, and one team-scoped link when
`createLink` is set. -/
def createdDocument (p : Params) (ty : JStr) (folderId : Option JStr) (ids : DbIds) :
    Document :=
  let dd := p.documentData
  { id := ids.documentId
    name := dd.name
    numPages := dd.numPages
    file := dd.key
    originalFile := dd.key
    contentType := dd.contentType
    type := ty
    storageType := dd.storageType
    ownerId := p.userId
    teamId := p.teamId
    advancedExcelEnabled := dd.enableExcelAdvancedMode
    downloadOnly := isDownloadOnly ty dd.contentType
    folderId := folderId
    isExternalUpload := p.isExternalUpload
    links := if p.createLink then [⟨ids.linkId, p.teamId⟩] else []
    versions :=
      [{ id := ids.versionId
         file := dd.key
         originalFile := dd.key
         contentType := dd.contentType
         type := ty
         storageType := dd.storageType
         numPages := dd.numPages
         isPrimary := true
         versionNumber := 1
         fileSize := dd.fileSize }] }

/-- Does `contentType?.startsWith("video/")` hold (undefined is falsy)? -/
def ctIsVideo (ct : Option JStr) : Bool :=
  match ct with
  | some s => (js "video/").isPrefixOf s
  | none => false

/-- Lines 187-196: the shared task options — idempotency key
`{teamId}-{versionId}`, the three observability tags, the plan-scoped
queue and the team-scoped concurrency key. -/
def baseTaskOptions (env : Env) (p : Params) (doc : Document) (versionId : JStr) :
    TaskOptions :=
  { idempotencyKey := p.teamId ++ js "-" ++ versionId
    tags :=
      [js "team_" ++ p.teamId, js "document_" ++ doc.id, js "version:" ++ versionId]
    queue := env.conversionQueue p.teamPlan
    concurrencyKey := p.teamId }

/-- Lines 198-260: the conversion tasks `processDocument` submits for a
committed document, in source order.  Keynote, Office and CAD tasks
append a purpose suffix to the idempotency key; the video and PDF tasks
pass `taskOptions` unchanged. -/
def dispatchedTasks (env : Env) (p : Params) (ty : JStr) (doc : Document)
    (versionId : JStr) : List Task :=
  let ct := p.documentData.contentType
  let base := baseTaskOptions env p doc versionId
  let first : List Task :=
    if ty == js "slides" &&
        (ct == some (js "application/vnd.apple.keynote") ||
         ct == some (js "application/x-iwork-keynote-sffkey")) then
      [⟨.keynoteToPdf, { base with idempotencyKey := base.idempotencyKey ++ js "-keynote" }⟩]
    else if ty == js "docs" || ty == js "slides" then
      [⟨.filesToPdf, { base with idempotencyKey := base.idempotencyKey ++ js "-docs" }⟩]
    else []
  let cad : List Task :=
    if ty == js "cad" then
      [⟨.cadToPdf, { base with idempotencyKey := base.idempotencyKey ++ js "-cad" }⟩]
    else []
  let video : List Task :=
    if ty == js "video" && !(ct == some (js "video/mp4")) && ctIsVideo ct then
      [⟨.videoProcess, base⟩]
    else []
  let pdf : List Task :=
    if ty == js "pdf" then [⟨.pdfToImage, base⟩] else []
  first ++ cad ++ video ++ pdf

/-- The orchestrator `processDocument` (src/unnamed/part_000 lines 31-317).
Control flow follows the source: the Notion gate and the link-URL gate are
the only pre-commit aborts; the blocklist check only logs (its throw is
swallowed by the inner catch of line 104); folder lookup defaults to the
root on failure; a failing `prisma.document.create` propagates; the
background-job block (a trigger failure at index `triggerFail` abandons
the remaining submissions but is caught), the advanced-Excel block (copy,
then a version-row page-count update in the database, then revalidation)
and the webhook block are each caught locally and never change the
returned document. -/
def processDocument (env : Env) (p : Params) : PRes :=
  let dd := p.documentData
  let ty := resolvedType env dd
  if !(notionGateOk env ty dd.key) then
    ⟨.error .notionNotAvailable, [], [], [], []⟩
  else if !(linkUrlOk env ty dd.key) then
    ⟨.error .invalidUrlFormat, [], [], [], []⟩
  else
    let alerts := if ty == js "link" then linkAlerts env dd.key else []
    let folderId := folderIdOf env
    match env.dbCreate with
    | .error _ => ⟨.error .dbError, [], [], alerts, []⟩
    | .ok ids =>
      let doc := createdDocument p ty folderId ids
      let allTasks := dispatchedTasks env p ty doc ids.versionId
      let tasks :=
        match env.triggerFail with
        | none => allTasks
        | some n => allTasks.take n
      let db :=
        if ty == js "sheet" && jsTruthyOpt dd.enableExcelAdvancedMode then
          if env.copyFileOk then
            if env.versionUpdateOk then
              [{ doc with
                  versions :=
                    doc.versions.map fun v =>
                      if v.id == ids.versionId then { v with numPages := some 1 } else v }]
            else [doc]
          else [doc]
        else [doc]
      ⟨.ok doc, db, [doc], alerts, tasks⟩

/-! The progress endpoint (src/pages/api/progress-token.ts) and the
content-type rule of `documentUploadSchema`
(src/lib/zod/url-validation.ts lines 251-274). -/

/-- The `documentVersionId` query value as Next.js delivers it: absent, a
single string, or repeated (an array). -/
inductive QueryVal where
  | missing
  | str (s : JStr)
  | arr (l : List JStr)
deriving DecidableEq

/-- A JSON body returned by the progress handler: a progress record or an
error object. -/
inductive ProgressBody where
  | record (status : JStr) (percentage : Nat)
  | errorMsg (msg : JStr)
deriving DecidableEq

/-- Oracles for the progress handler: `getServerSession` (which may throw
or return no session) and the Redis read (which may throw or find no
stored record). -/
structure ProgressEnv where
  session : Except Unit (Option Unit)
  redisGet : Except Unit (Option ProgressBody)

/-- Embeds the progress endpoint handler (src/pages/api/progress-token.ts
lines 6-41): everything is inside one try whose catch returns 200 with
`{status: "processing", percentage: 5}`; a missing session returns 401; a
missing, empty or non-string `documentVersionId` returns 400; otherwise
the stored record is returned, or the synthetic
`{status: "processing", percentage: 10}` when none is stored. -/
def progressHandler (env : ProgressEnv) (q : QueryVal) : Nat × ProgressBody :=
  match env.session with
  | .error _ => (200, .record (js "processing") 5)
  | .ok none => (401, .errorMsg (js "Unauthorized"))
  | .ok (some _) =>
    match q with
    | .str s =>
      if s.isEmpty then (400, .errorMsg (js "Missing documentVersionId"))
      else
        match env.redisGet with
        | .error _ => (200, .record (js "processing") 5)
        | .ok (some p) => (200, p)
        | .ok none => (200, .record (js "processing") 10)
    | _ => (400, .errorMsg (js "Missing documentVersionId"))

/-- The fields of a `documentUploadSchema` submission read by its
content-type refinement rule (the rule's closure reads only `type` and
`contentType`). -/
structure UploadSubmission where
  type : JStr
  contentType : Option JStr
deriving DecidableEq

/-- Embeds the content-type refinement of `documentUploadSchema`
(src/lib/zod/url-validation.ts lines 251-274).  The Type Classifier
`getSupportedContentType` lives in lib/utils/get-content-type, outside
the sources, and is passed as a parameter.  A missing (or empty, hence
falsy) content type is allowed only for "notion" and "link"; a present
one is accepted unconditionally for type "link", via the text/html
exception for type "notion", or when the classifier maps it to the
declared type. -/
def contentTypeRule (getSupportedContentType : JStr → Option JStr)
    (d : UploadSubmission) : Bool :=
  match d.contentType with
  | none => d.type == js "notion" || d.type == js "link"
  | some ct =>
    if ct.isEmpty then d.type == js "notion" || d.type == js "link"
    else if d.type == js "link" then true
    else
      let expectedType := getSupportedContentType ct
      if ct == js "text/html" && d.type == js "notion" then true
      else expectedType == some d.type

/-- The content-type rule as claim C8 states it: with no content type only
"notion" and "link" pass; with one present, it must classify to the
declared type, except that text/html with "notion" is accepted.  (The
claim has no clause for type "link" with a content type present.) -/
def contentTypeRuleAsClaimed (getSupportedContentType : JStr → Option JStr)
    (d : UploadSubmission) : Bool :=
  match d.contentType with
  | none => d.type == js "notion" || d.type == js "link"
  | some ct =>
    (ct == js "text/html" && d.type == js "notion") ||
    getSupportedContentType ct == some d.type

/-- Modelled from the spec: the Type Classifier `getSupportedContentType`
(lib/utils/get-content-type, not among the sources) maps a MIME content
type to its logical document type; only the mappings used in concrete
instances here are included. -/
def classifierModel (ct : JStr) : Option JStr :=
  if ct == js "application/pdf" then some (js "pdf")
  else if ct == js "application/vnd.ms-excel" then some (js "sheet")
  else if ct == js "video/mp4" || ct == js "video/quicktime" then some (js "video")
  else if ct == js "text/html" then some (js "notion")
  else none

/-! Concrete instances used to evaluate the embedded code. -/

/-- Row identifiers handed out by the healthy database oracle. -/
def idsW : DbIds := ⟨js "doc1", js "ver1", js "lnk1"⟩

/-- A fully healthy oracle environment. -/
def envOk : Env :=
  { getExtension := fun _ => js "pdf"
    parsePageId := fun _ => none
    getNotionPageIdFromSlug := fun _ => .ok none
    notionGetPage := fun _ => .ok ()
    urlParses := fun _ => true
    edgeKeywords := .ok .notArray
    folderLookup := .ok none
    dbCreate := .ok idsW
    conversionQueue := fun _ => js "paid"
    triggerFail := none
    copyFileOk := true
    versionUpdateOk := true
    revalidateEnvSet := true
    webhookDocOk := true
    webhookLinkOk := true }

/-- A plain PDF upload payload. -/
def ddPdf : DocumentData :=
  { name := js "report.pdf"
    key := js "t1/doc_abc/report.pdf"
    storageType := .S3_PATH
    contentType := some (js "application/pdf")
    supportedFileType := some (js "pdf")
    fileSize := some 100
    numPages := some 3
    enableExcelAdvancedMode := some false }

/-- A plain PDF upload call. -/
def pPdf : Params :=
  { documentData := ddPdf
    teamId := js "t1"
    teamPlan := js "pro"
    userId := some (js "u1")
    folderPathName := some (js "f")
    createLink := true
    isExternalUpload := false }

/-- The same call with a QuickTime video payload. -/
def pVideo : Params :=
  { pPdf with
      documentData :=
        { ddPdf with
            name := js "clip.mov"
            key := js "t1/doc_abc/clip.mov"
            contentType := some (js "video/quicktime")
            supportedFileType := some (js "video") } }

/-- The task options both the PDF-pagination and the video task receive
for team t1 and version ver1: the bare idempotency key with no suffix. -/
def optsW : TaskOptions :=
  { idempotencyKey := js "t1-ver1"
    tags := [js "team_t1", js "document_doc1", js "version:ver1"]
    queue := js "paid"
    concurrencyKey := js "t1" }

/-- The document the healthy environment creates for the PDF call. -/
def docPdf : Document := createdDocument pPdf (js "pdf") none idsW

/-- An environment whose Edge-Config blocklist contains a keyword
matching the submitted link. -/
def envBlocklist : Env :=
  { envOk with edgeKeywords := .ok (.arr [.str (js "blocked.example.com")]) }

/-- A link submission whose URL contains the blocklisted keyword. -/
def pLink : Params :=
  { documentData :=
      { name := js "Bad Link"
        key := js "https://blocked.example.com/file"
        storageType := .VERCEL_BLOB
        contentType := none
        supportedFileType := some (js "link")
        fileSize := none
        numPages := none
        enableExcelAdvancedMode := none }
    teamId := js "t1"
    teamPlan := js "pro"
    userId := some (js "u1")
    folderPathName := none
    createLink := false
    isExternalUpload := false }

/-- The document the code creates for the blocklisted link call. -/
def docLink : Document := createdDocument pLink (js "link") none idsW

/-- A "link"-typed submission carrying a PDF content type. -/
def linkPdfSubmission : UploadSubmission := ⟨js "link", some (js "application/pdf")⟩

/-! Claim theorems. -/

/-- Claim C10: `validatePathSecurity` matches its double-encoding
substrings case-sensitively — the input `/files/%2e%2e/secret` contains
the lowercase double-encoded traversal sequence `%2e%2e` and none of the
five blocked substrings, and `validatePathSecurity` accepts it. -/
theorem path_security_lowercase_double_encoding_passes :
    jsIncludes (js "/files/%2e%2e/secret") (js "%2e%2e") = true ∧
    jsIncludes (js "/files/%2e%2e/secret") (js "../") = false ∧
    jsIncludes (js "/files/%2e%2e/secret") (js "..\\") = false ∧
    jsIncludes (js "/files/%2e%2e/secret") (js "\x00") = false ∧
    jsIncludes (js "/files/%2e%2e/secret") (js "%2E%2E") = false ∧
    jsIncludes (js "/files/%2e%2e/secret") (js "%2F%2F") = false ∧
    validatePathSecurity (js "/files/%2e%2e/secret") = true := by
  decide

/-- Claim C5 counterexample: `https://10.evil.com/x` parses to the
hostname `10.evil.com`, which is not an IP address in any of the listed
ranges (and none of the other listed conditions holds), so the claim's
characterization says `validateUrlSSRFProtection` returns true — but the
code's textual prefix test blocks it and returns false. -/
theorem ssrf_exact_characterization_counterexample :
    validateUrlSSRFProtection parseHostSimple (js "https://10.evil.com/x") = false ∧
    parseHostSimple (js "https://10.evil.com/x") = some (js "10.evil.com") ∧
    ssrfProtectionAsClaimed parseHostSimple (js "https://10.evil.com/x") = true := by
  decide

/-- Claim C2 (code behavior at the failing input): for a "link"
submission whose URL contains the configured blocklist keyword, the
structured alert is logged, yet the thrown "This URL is not allowed"
error is swallowed by the inner Edge-Config catch, so the operation is
not rejected: the Document row is created and returned. -/
theorem link_blocklist_match_still_creates_document :
    (processDocument envBlocklist pLink).alerts = [js "blocked.example.com"] ∧
    (processDocument envBlocklist pLink).result = Except.ok docLink ∧
    (processDocument envBlocklist pLink).created = [docLink] := by
  exact ⟨rfl, rfl, rfl⟩

/-- Claim C3 counterexample: the PDF-pagination task and the video task
for the same team `t1` and primary version `ver1` are both submitted with
the bare idempotency key `t1-ver1` — two tasks of different purposes
share one idempotency key, and neither key carries a purpose suffix. -/
theorem dispatch_key_shared_between_video_and_pdf :
    (processDocument envOk pPdf).tasks = [⟨.pdfToImage, optsW⟩] ∧
    (processDocument envOk pVideo).tasks = [⟨.videoProcess, optsW⟩] ∧
    (TaskKind.pdfToImage ≠ TaskKind.videoProcess) ∧
    optsW.idempotencyKey = js "t1" ++ js "-" ++ js "ver1" := by
  refine ⟨rfl, rfl, by decide, by decide⟩

/-- Claim C8 counterexample: a submission with logical type "link" and
content type `application/pdf` is accepted by the content-type rule via
its early `return true` for links, although the classifier maps
`application/pdf` to "pdf", not "link", and the text/html-with-notion
exception does not apply — the rule as the claim states it rejects it. -/
theorem content_type_rule_link_exception_counterexample :
    contentTypeRule classifierModel linkPdfSubmission = true ∧
    classifierModel (js "application/pdf") = some (js "pdf") ∧
    contentTypeRuleAsClaimed classifierModel linkPdfSubmission = false := by
  decide

/-- Characterization of a successful `processDocument` call: the result
is `ok doc` exactly when both pre-commit gates pass, the database create
succeeds, and `doc` is the row built at the commit. -/
theorem processDocument_result_ok (env : Env) (p : Params) (doc : Document) :
    (processDocument env p).result = Except.ok doc ↔
      ∃ ids, env.dbCreate = Except.ok ids ∧
        notionGateOk env (resolvedType env p.documentData) p.documentData.key = true ∧
        linkUrlOk env (resolvedType env p.documentData) p.documentData.key = true ∧
        doc = createdDocument p (resolvedType env p.documentData) (folderIdOf env) ids := by
  cases hN : notionGateOk env (resolvedType env p.documentData) p.documentData.key with
  | false => simp [processDocument, hN]
  | true =>
    cases hL : linkUrlOk env (resolvedType env p.documentData) p.documentData.key with
    | false => simp [processDocument, hN, hL]
    | true =>
      cases hdb : env.dbCreate with
      | error e => simp [processDocument, hN, hL, hdb]
      | ok ids =>
        simp only [processDocument, hN, hL, hdb, Bool.not_true, Bool.false_eq_true,
          if_false, Except.ok.injEq, Except.ok.injEq, true_and]
        constructor
        · intro h
          exact ⟨ids, rfl, h.symm⟩
        · rintro ⟨ids', hids, rfl⟩
          cases hids
          rfl

/-- Claim C1: once the database creation succeeds in a `processDocument`
call, the call returns exactly the created Document: for every
fault-injection choice at the conversion-dispatch, advanced-Excel-mode
and webhook sites the returned value is the unchanged created row, and a
failure injected into the folder lookup still yields a successful return
of the row created in that run. -/
theorem processDocument_commit_durable (env : Env) (p : Params) (ids : DbIds)
    (hN : notionGateOk env (resolvedType env p.documentData) p.documentData.key = true)
    (hL : linkUrlOk env (resolvedType env p.documentData) p.documentData.key = true)
    (hdb : env.dbCreate = Except.ok ids) :
    (processDocument env p).result =
        Except.ok (createdDocument p (resolvedType env p.documentData) (folderIdOf env) ids) ∧
    (processDocument env p).created =
        [createdDocument p (resolvedType env p.documentData) (folderIdOf env) ids] ∧
    (∀ tf cf vf rf wd wl,
      (processDocument
          { env with
              triggerFail := tf, copyFileOk := cf, versionUpdateOk := vf,
              revalidateEnvSet := rf, webhookDocOk := wd, webhookLinkOk := wl } p).result =
        Except.ok (createdDocument p (resolvedType env p.documentData) (folderIdOf env) ids)) ∧
    (∀ fl,
      (processDocument { env with folderLookup := fl } p).result =
        Except.ok (createdDocument p (resolvedType env p.documentData)
          (folderIdOf { env with folderLookup := fl }) ids)) := by
  refine ⟨?_, ?_, ?_, ?_⟩
  · simp [processDocument, hN, hL, hdb]
  · simp [processDocument, hN, hL, hdb]
  · intro tf cf vf rf wd wl
    exact (processDocument_result_ok
        { env with
            triggerFail := tf, copyFileOk := cf, versionUpdateOk := vf,
            revalidateEnvSet := rf, webhookDocOk := wd, webhookLinkOk := wl }
        p _).mpr ⟨ids, hdb, hN, hL, rfl⟩
  · intro fl
    exact (processDocument_result_ok { env with folderLookup := fl } p _).mpr
      ⟨ids, hdb, hN, hL, rfl⟩

/-- Claim C1 witness: the healthy environment commits the PDF call and
returns the created document. -/
theorem processDocument_commit_durable_witness :
    (processDocument envOk pPdf).result = Except.ok docPdf :=
  (processDocument_commit_durable envOk pPdf idsW (by decide) (by decide) rfl).1

/-- Claim C4: a "notion" submission whose key yields no page id from the
direct parse nor from the custom-domain slug lookup (whether the lookup
returns nothing or fails) throws the "not publicly available" error, and
no Document row is created — the gate fires before the durable commit. -/
theorem notion_unresolvable_blocks_creation (env : Env) (p : Params)
    (hty : resolvedType env p.documentData = js "notion")
    (hparse : env.parsePageId p.documentData.key = none)
    (hslug : env.getNotionPageIdFromSlug p.documentData.key = Except.ok none ∨
             env.getNotionPageIdFromSlug p.documentData.key = Except.error ()) :
    (processDocument env p).result = Except.error PmError.notionNotAvailable ∧
    (processDocument env p).created = [] ∧
    (processDocument env p).db = [] := by
  have hres : resolveNotionPageId env p.documentData.key = none := by
    unfold resolveNotionPageId
    rw [hparse]
    rcases hslug with h | h <;> rw [h]
  have hgate :
      notionGateOk env (resolvedType env p.documentData) p.documentData.key = false := by
    unfold notionGateOk
    rw [hty]
    simp [hres]
  refine ⟨?_, ?_, ?_⟩ <;> simp [processDocument, hgate]

/-- Claim C4 witness: a concrete "notion" call with an unresolvable key
is rejected without creating a row. -/
theorem notion_unresolvable_blocks_creation_witness :
    (processDocument envOk
        { pPdf with
            documentData := { ddPdf with supportedFileType := some (js "notion") } }).result =
      Except.error PmError.notionNotAvailable :=
  (notion_unresolvable_blocks_creation envOk
      { pPdf with documentData := { ddPdf with supportedFileType := some (js "notion") } }
      (by decide) rfl (Or.inl rfl)).1

/-- Claim C6: every Document returned by `processDocument` has exactly
one DocumentVersion immediately after creation, with version number 1 and
the primary flag set. -/
theorem created_document_single_primary_version (env : Env) (p : Params) (doc : Document)
    (h : (processDocument env p).result = Except.ok doc) :
    doc.versions.length = 1 ∧
    ∀ v ∈ doc.versions, v.versionNumber = 1 ∧ v.isPrimary = true := by
  obtain ⟨ids, -, -, -, rfl⟩ := (processDocument_result_ok env p doc).mp h
  simp [createdDocument]

/-- Claim C6 witness: the concrete PDF call's document has one primary
version numbered 1. -/
theorem created_document_single_primary_version_witness :
    docPdf.versions.length = 1 ∧
    ∀ v ∈ docPdf.versions, v.versionNumber = 1 ∧ v.isPrimary = true :=
  created_document_single_primary_version envOk pPdf docPdf rfl

/-- Claim C9: with `createLink = true` the returned Document carries
exactly one Link, scoped to the requesting team and created in the same
atomic write as the Document; with `createLink = false` it carries none. -/
theorem link_creation_matches_flag (env : Env) (p : Params) (doc : Document)
    (h : (processDocument env p).result = Except.ok doc) :
    (p.createLink = true → ∃ l : Link, doc.links = [l] ∧ l.teamId = p.teamId) ∧
    (p.createLink = false → doc.links = []) := by
  obtain ⟨ids, -, -, -, rfl⟩ := (processDocument_result_ok env p doc).mp h
  constructor
  · intro hc
    exact ⟨⟨ids.linkId, p.teamId⟩, by simp [createdDocument, hc], rfl⟩
  · intro hc
    simp [createdDocument, hc]

/-- Claim C9 witness: the concrete PDF call requested a link and its
document carries exactly one, scoped to team t1. -/
theorem link_creation_matches_flag_witness :
    ∃ l : Link, docPdf.links = [l] ∧ l.teamId = js "t1" :=
  (link_creation_matches_flag envOk pPdf docPdf rfl).1 rfl

/-- The suffix the dispatch code appends to the shared idempotency key,
per task kind: the keynote, office and CAD submissions extend the key,
the video and PDF submissions pass it unchanged. -/
def purposeSuffix : TaskKind → JStr
  | .keynoteToPdf => js "-keynote"
  | .filesToPdf => js "-docs"
  | .cadToPdf => js "-cad"
  | .videoProcess => []
  | .pdfToImage => []

/-- Claim C3 (amended): every conversion task submitted by the dispatch
block carries the idempotency key `{teamId}-{versionId}` extended by
`purposeSuffix` of its kind — a nonempty, pairwise-distinct suffix for
the Keynote, Office and CAD tasks, and the empty suffix for the video
and PDF-pagination tasks, which therefore share the bare key. -/
theorem dispatched_task_idempotency_key (env : Env) (p : Params) (ty : JStr)
    (doc : Document) (versionId : JStr) (t : Task)
    (ht : t ∈ dispatchedTasks env p ty doc versionId) :
    t.options.idempotencyKey = (p.teamId ++ js "-" ++ versionId) ++ purposeSuffix t.kind := by
  simp only [dispatchedTasks, List.mem_append] at ht
  rcases ht with ((h | h) | h) | h
  · split at h
    · simp only [List.mem_singleton] at h
      subst h
      simp [baseTaskOptions, purposeSuffix]
    · split at h
      · simp only [List.mem_singleton] at h
        subst h
        simp [baseTaskOptions, purposeSuffix]
      · simp at h
  · split at h
    · simp only [List.mem_singleton] at h
      subst h
      simp [baseTaskOptions, purposeSuffix]
    · simp at h
  · split at h
    · simp only [List.mem_singleton] at h
      subst h
      simp [baseTaskOptions, purposeSuffix]
    · simp at h
  · split at h
    · simp only [List.mem_singleton] at h
      subst h
      simp [baseTaskOptions, purposeSuffix]
    · simp at h

/-- Claim C3 witness: the concrete PDF-pagination task of the healthy PDF
call carries the bare key extended by its (empty) purpose suffix. -/
theorem dispatched_task_idempotency_key_witness :
    optsW.idempotencyKey =
      (pPdf.teamId ++ js "-" ++ js "ver1") ++ purposeSuffix TaskKind.pdfToImage :=
  dispatched_task_idempotency_key envOk pPdf (js "pdf") docPdf (js "ver1")
    ⟨.pdfToImage, optsW⟩ (by decide)

/-- Claim C7: the progress handler returns 200 with the stored record for
an authenticated request carrying a (nonempty, single-string) version id
when one is stored, the synthetic 10-percent record when none is stored,
and the 5-percent record on any internal error (including a throwing
session lookup); its only non-200 responses are 401 when the session is
missing and 400 when the version-id parameter is missing, empty or not a
single string. -/
theorem progress_endpoint_behavior (env : ProgressEnv) (q : QueryVal) :
    (env.session = Except.error () →
      progressHandler env q = (200, .record (js "processing") 5)) ∧
    (env.session = Except.ok none →
      progressHandler env q = (401, .errorMsg (js "Unauthorized"))) ∧
    (∀ s, env.session = Except.ok (some ()) → q = .str s → s ≠ [] →
      progressHandler env q =
        (200,
          match env.redisGet with
          | .ok (some r) => r
          | .ok none => .record (js "processing") 10
          | .error _ => .record (js "processing") 5)) ∧
    (∀ n b, progressHandler env q = (n, b) → n ≠ 200 →
      (n = 401 ∧ env.session = Except.ok none) ∨
      (n = 400 ∧ env.session = Except.ok (some ()) ∧ ∀ s, q = .str s → s = [])) := by
  refine ⟨?_, ?_, ?_, ?_⟩
  · intro hs
    simp [progressHandler, hs]
  · intro hs
    simp [progressHandler, hs]
  · rintro s hs rfl hne
    have hne' : s.isEmpty = false := by
      cases s
      · exact absurd rfl hne
      · rfl
    simp only [progressHandler, hs, hne', Bool.false_eq_true, if_false]
    cases env.redisGet with
    | error e => rfl
    | ok r => cases r <;> rfl
  · intro n b heq hne
    cases hs : env.session with
    | error e =>
      simp [progressHandler, hs] at heq
      exact absurd heq.1.symm hne
    | ok o =>
      cases o with
      | none =>
        simp [progressHandler, hs] at heq
        exact Or.inl ⟨heq.1.symm, rfl⟩
      | some u =>
        cases u
        cases q with
        | missing =>
          simp [progressHandler, hs] at heq
          exact Or.inr ⟨heq.1.symm, rfl, by intro s hq; cases hq⟩
        | arr l =>
          simp [progressHandler, hs] at heq
          exact Or.inr ⟨heq.1.symm, rfl, by intro s hq; cases hq⟩
        | str s =>
          cases s with
          | nil =>
            simp [progressHandler, hs] at heq
            refine Or.inr ⟨heq.1.symm, rfl, ?_⟩
            intro s' hq
            cases hq
            rfl
          | cons c cs =>
            exfalso
            apply hne
            have h1 : (progressHandler env (QueryVal.str (c :: cs))).1 = n := by rw [heq]
            rw [← h1]
            cases hr : env.redisGet with
            | error e => simp [progressHandler, hs, hr]
            | ok r => cases r <;> simp [progressHandler, hs, hr]

/-- Claim C7 witness: an authenticated request for version v1 with no
stored record yet gets 200 with the synthetic 10-percent record. -/
theorem progress_endpoint_behavior_witness :
    progressHandler ⟨Except.ok (some ()), Except.ok none⟩ (.str (js "v1")) =
      (200, .record (js "processing") 10) :=
  (progress_endpoint_behavior ⟨Except.ok (some ()), Except.ok none⟩
      (.str (js "v1"))).2.2.1 (js "v1") rfl rfl (by decide)

/-- Claim C8 (amended): the content-type rule accepts a submission with a
missing (or empty) content type exactly when its type is "notion" or
"link"; with a content type present it accepts exactly when the type is
"link", or the content type is text/html with type "notion", or the
classifier maps the content type to the declared type. -/
theorem content_type_rule_characterization (g : JStr → Option JStr)
    (d : UploadSubmission) :
    contentTypeRule g d = true ↔
      (match d.contentType with
       | none => d.type = js "notion" ∨ d.type = js "link"
       | some ct =>
         if ct = [] then d.type = js "notion" ∨ d.type = js "link"
         else
           d.type = js "link" ∨ (ct = js "text/html" ∧ d.type = js "notion") ∨
           g ct = some d.type) := by
  cases hct : d.contentType with
  | none => simp [contentTypeRule, hct]
  | some ct =>
    by_cases hem : ct = []
    · subst hem
      simp [contentTypeRule, hct]
    · have hem' : ct.isEmpty = false := by
        cases ct
        · exact absurd rfl hem
        · rfl
      by_cases hlink : d.type = js "link"
      · simp [contentTypeRule, hct, hem', hem, hlink]
      · by_cases hhtml : ct = js "text/html" ∧ d.type = js "notion"
        · simp [contentTypeRule, hct, hem', hem, hlink, hhtml.1, hhtml.2, hhtml]
        · have hb : (ct == js "text/html" && d.type == js "notion") = false := by
            rcases Decidable.not_and_iff_or_not.mp hhtml with hx | hx <;>
              simp [hx]
          simp [contentTypeRule, hct, hem', hem, hlink, hhtml, hb]

/-- The character classes of the `^172\.(1[6-9]|2[0-9]|3[01])\.` regex
alternative denote exactly the prefixes `172.n.` for n between 16 and 31. -/
theorem matches172_iff (h : JStr) :
    matches172 h = true ↔
      ∃ n, 16 ≤ n ∧ n ≤ 31 ∧ (js ("172." ++ toString n ++ ".")).isPrefixOf h = true := by
  constructor
  · intro hm
    simp only [matches172, Bool.or_eq_true] at hm
    rcases hm with
      (((((((((((((((h1 | h1) | h1) | h1) | h1) | h1) | h1) | h1) | h1) | h1) | h1) | h1) |
        h1) | h1) | h1) | h1)
    all_goals
      first
      | exact ⟨16, by norm_num, by norm_num, by
          rw [(by decide : js ("172." ++ toString 16 ++ ".") = js "172.16.")]; exact h1⟩
      | exact ⟨17, by norm_num, by norm_num, by
          rw [(by decide : js ("172." ++ toString 17 ++ ".") = js "172.17.")]; exact h1⟩
      | exact ⟨18, by norm_num, by norm_num, by
          rw [(by decide : js ("172." ++ toString 18 ++ ".") = js "172.18.")]; exact h1⟩
      | exact ⟨19, by norm_num, by norm_num, by
          rw [(by decide : js ("172." ++ toString 19 ++ ".") = js "172.19.")]; exact h1⟩
      | exact ⟨20, by norm_num, by norm_num, by
          rw [(by decide : js ("172." ++ toString 20 ++ ".") = js "172.20.")]; exact h1⟩
      | exact ⟨21, by norm_num, by norm_num, by
          rw [(by decide : js ("172." ++ toString 21 ++ ".") = js "172.21.")]; exact h1⟩
      | exact ⟨22, by norm_num, by norm_num, by
          rw [(by decide : js ("172." ++ toString 22 ++ ".") = js "172.22.")]; exact h1⟩
      | exact ⟨23, by norm_num, by norm_num, by
          rw [(by decide : js ("172." ++ toString 23 ++ ".") = js "172.23.")]; exact h1⟩
      | exact ⟨24, by norm_num, by norm_num, by
          rw [(by decide : js ("172." ++ toString 24 ++ ".") = js "172.24.")]; exact h1⟩
      | exact ⟨25, by norm_num, by norm_num, by
          rw [(by decide : js ("172." ++ toString 25 ++ ".") = js "172.25.")]; exact h1⟩
      | exact ⟨26, by norm_num, by norm_num, by
          rw [(by decide : js ("172." ++ toString 26 ++ ".") = js "172.26.")]; exact h1⟩
      | exact ⟨27, by norm_num, by norm_num, by
          rw [(by decide : js ("172." ++ toString 27 ++ ".") = js "172.27.")]; exact h1⟩
      | exact ⟨28, by norm_num, by norm_num, by
          rw [(by decide : js ("172." ++ toString 28 ++ ".") = js "172.28.")]; exact h1⟩
      | exact ⟨29, by norm_num, by norm_num, by
          rw [(by decide : js ("172." ++ toString 29 ++ ".") = js "172.29.")]; exact h1⟩
      | exact ⟨30, by norm_num, by norm_num, by
          rw [(by decide : js ("172." ++ toString 30 ++ ".") = js "172.30.")]; exact h1⟩
      | exact ⟨31, by norm_num, by norm_num, by
          rw [(by decide : js ("172." ++ toString 31 ++ ".") = js "172.31.")]; exact h1⟩
  · rintro ⟨n, h16, h31, hp⟩
    interval_cases n
    all_goals
      first
      | simp [matches172, show (js "172.16.").isPrefixOf h = true from by
          rw [(by decide : js "172.16." = js ("172." ++ toString 16 ++ "."))]; exact hp]
      | simp [matches172, show (js "172.17.").isPrefixOf h = true from by
          rw [(by decide : js "172.17." = js ("172." ++ toString 17 ++ "."))]; exact hp]
      | simp [matches172, show (js "172.18.").isPrefixOf h = true from by
          rw [(by decide : js "172.18." = js ("172." ++ toString 18 ++ "."))]; exact hp]
      | simp [matches172, show (js "172.19.").isPrefixOf h = true from by
          rw [(by decide : js "172.19." = js ("172." ++ toString 19 ++ "."))]; exact hp]
      | simp [matches172, show (js "172.20.").isPrefixOf h = true from by
          rw [(by decide : js "172.20." = js ("172." ++ toString 20 ++ "."))]; exact hp]
      | simp [matches172, show (js "172.21.").isPrefixOf h = true from by
          rw [(by decide : js "172.21." = js ("172." ++ toString 21 ++ "."))]; exact hp]
      | simp [matches172, show (js "172.22.").isPrefixOf h = true from by
          rw [(by decide : js "172.22." = js ("172." ++ toString 22 ++ "."))]; exact hp]
      | simp [matches172, show (js "172.23.").isPrefixOf h = true from by
          rw [(by decide : js "172.23." = js ("172." ++ toString 23 ++ "."))]; exact hp]
      | simp [matches172, show (js "172.24.").isPrefixOf h = true from by
          rw [(by decide : js "172.24." = js ("172." ++ toString 24 ++ "."))]; exact hp]
      | simp [matches172, show (js "172.25.").isPrefixOf h = true from by
          rw [(by decide : js "172.25." = js ("172." ++ toString 25 ++ "."))]; exact hp]
      | simp [matches172, show (js "172.26.").isPrefixOf h = true from by
          rw [(by decide : js "172.26." = js ("172." ++ toString 26 ++ "."))]; exact hp]
      | simp [matches172, show (js "172.27.").isPrefixOf h = true from by
          rw [(by decide : js "172.27." = js ("172." ++ toString 27 ++ "."))]; exact hp]
      | simp [matches172, show (js "172.28.").isPrefixOf h = true from by
          rw [(by decide : js "172.28." = js ("172." ++ toString 28 ++ "."))]; exact hp]
      | simp [matches172, show (js "172.29.").isPrefixOf h = true from by
          rw [(by decide : js "172.29." = js ("172." ++ toString 29 ++ "."))]; exact hp]
      | simp [matches172, show (js "172.30.").isPrefixOf h = true from by
          rw [(by decide : js "172.30." = js ("172." ++ toString 30 ++ "."))]; exact hp]
      | simp [matches172, show (js "172.31.").isPrefixOf h = true from by
          rw [(by decide : js "172.31." = js ("172." ++ toString 31 ++ "."))]; exact hp]

/-- Claim C5 (amended): `validateUrlSSRFProtection` returns false exactly
when the URL fails to parse, or the parsed hostname is the literal
`localhost`, `127.0.0.1` or `::1`, or the hostname *begins with* one of
the textual prefixes `10.`, `172.16.` through `172.31.`, `192.168.` or
`169.254.`, or its lowercasing begins with `fe80:` — a prefix test on the
hostname string, not membership of an IP address in the CIDR ranges. -/
theorem validateUrlSSRFProtection_false_iff (ph : JStr → Option JStr) (url : JStr) :
    validateUrlSSRFProtection ph url = false ↔
      ph url = none ∨
      ∃ h, ph url = some h ∧
        (h = js "localhost" ∨ h = js "127.0.0.1" ∨ h = js "::1" ∨
         (js "10.").isPrefixOf h = true ∨
         (∃ n, 16 ≤ n ∧ n ≤ 31 ∧ (js ("172." ++ toString n ++ ".")).isPrefixOf h = true) ∨
         (js "192.168.").isPrefixOf h = true ∨
         (js "169.254.").isPrefixOf h = true ∨
         (js "fe80:").isPrefixOf (h.map jsToLowerChar) = true) := by
  cases hph : ph url with
  | none => simp [validateUrlSSRFProtection, hph]
  | some h =>
    simp only [validateUrlSSRFProtection, hph, Bool.not_eq_false', ssrfBlockedHostname,
      privateIpRegexTest, Bool.or_eq_true, beq_iff_eq, matches172_iff,
      Option.some.injEq, reduceCtorEq, false_or, exists_eq_left']
    simp only [or_assoc]

end Papermark
